import Mathlib

/-!
# Verification of the WorkTrunk OpenCode plugin (src/index.ts)

A shallow embedding of the plugin. The shell is modelled as a function from
command token lists to `Except String String` (`.error` = the invocation threw,
`.ok` = the captured standard output). The plugin closure's mutable variables
(`currentBranch`, `lastKnownBranch`, the pending debounce timer) become a
`PluginState` structure, and the body of each tool's `execute` becomes a pure
function returning the output string, the updated state, and the trace of
external invocations it performed, in order.
-/

set_option maxRecDepth 16384

/-- Marker set while the assistant is working or thinking (src/index.ts line 143). -/
def workMarker : String := "🤖"

/-- Marker set while the assistant is waiting for input (src/index.ts line 145). -/
def waitMarker : String := "💬"

/-- Mapping from a `session.status` event's substate to the marker passed to
`updateStatus` (src/index.ts lines 141-148). -/
def statusToMarker (status : String) : Option String :=
  if status == "working" || status == "thinking" then some workMarker
  else if status == "waiting" || status == "idle" then some waitMarker
  else none

/-- Dispatch of the event handler (src/index.ts lines 137-170): `some m` when
the handler calls `updateStatus m`, `none` when the event type is not handled. -/
def handleEvent (type status : String) : Option (Option String) :=
  if type == "session.status" then some (statusToMarker status)
  else if type == "session.created" then some (some waitMarker)
  else if type == "session.idle" then some none
  else if type == "session.error" then some none
  else none

/-- Substring containment, read off the character list of a string. -/
def containsStr (s pat : String) : Prop := pat.data <:+: s.data

instance (s pat : String) : Decidable (containsStr s pat) :=
  inferInstanceAs (Decidable (pat.data <:+: s.data))

/-- Boolean substring test, modelling the JavaScript `includes` method used by
the error-classification branches (src/index.ts lines 395 and 438). -/
def strIncludes (s pat : String) : Bool := decide (containsStr s pat)

/-- The shell environment: each command (given as its token list) either
succeeds with its captured standard output or throws an error message. -/
abbrev Env : Type := List String → Except String String

/-- Tokens of `wt --version` (src/index.ts line 21). -/
def versionCmd : List String := ["wt", "--version"]

/-- Tokens of `git rev-parse --abbrev-ref HEAD` (src/index.ts line 31). -/
def gitBranchCmd : List String := ["git", "rev-parse", "--abbrev-ref", "HEAD"]

/-- Tokens of `wt config state marker set <marker> --branch <branch>`
(src/index.ts lines 59, 62 and 330). -/
def markerSetCmd (marker branch : String) : List String :=
  ["wt", "config", "state", "marker", "set", marker, "--branch", branch]

/-- The plugin closure's mutable state (src/index.ts lines 13-16):
the two branch caches and the pending debounce timer, the latter holding the
marker it will pass to `setStatusMarker` when it fires. -/
structure PluginState where
  currentBranch : Option String
  lastKnownBranch : Option String
  pendingMarker : Option (Option String)

/-- `isWorkTrunkInstalled` (src/index.ts lines 19-26). -/
def isWorkTrunkInstalled (env : Env) : Bool :=
  match env versionCmd with
  | .ok _ => true
  | .error _ => false

/-- `getCurrentBranch` (src/index.ts lines 29-36): trimmed standard output of
the git probe, with an empty result or a thrown invocation giving `none`. -/
def getCurrentBranch (env : Env) : Option String :=
  match env gitBranchCmd with
  | .ok out => if out.trim == "" then none else some out.trim
  | .error _ => none

/-- The fixed not-installed message returned by every tool when the
`wt --version` probe fails (src/index.ts line 193 and its six copies). -/
def notInstalledMsg : String :=
  "Error: WorkTrunk is not installed. Please install it from https://worktrunk.dev/install"

/-- Flags built by `worktrunk-list` (src/index.ts lines 197-208). -/
def listFlags (format : Option String) (full branches : Bool) : List String :=
  let fmt := match format with
    | none => "text"
    | some f => if f == "" then "text" else f
  (if fmt == "json" then ["--format=json"] else []) ++
  (if full then ["--full"] else []) ++
  (if branches then ["--branches"] else [])

/-- Tokens of the `wt list` invocation issued by `worktrunk-list` (line 211). -/
def listCmd (format : Option String) (full branches : Bool) : List String :=
  ["wt", "list"] ++ listFlags format full branches

/-- Tokens of `wt switch <branch>` (line 242). -/
def switchCmd (branch : String) : List String := ["wt", "switch", branch]

/-- Tokens of `wt list --branch <branch>` issued by `worktrunk-status` (line 283). -/
def statusListCmd (branch : String) : List String := ["wt", "list", "--branch", branch]

/-- Tokens of `wt switch --create <branch> [--base=<base>]` (lines 380 and 387). -/
def createCmd (branch : String) (base : Option String) : List String :=
  match base with
  | some bs => ["wt", "switch", "--create", branch, "--base=" ++ bs]
  | none => ["wt", "switch", "--create", branch]

/-- Tokens of `wt remove <branch>` (line 423). -/
def removeCmd (branch : String) : List String := ["wt", "remove", branch]

/-- Tokens of `wt config state default-branch` (line 465). -/
def defaultBranchCmd : List String := ["wt", "config", "state", "default-branch"]

/-- Outcome of one tool `execute` body: the returned text, the closure state
after the call, and the trace of external invocations it performed, in order. -/
structure OpResult where
  output : String
  state : PluginState
  trace : List (List String)

/-- The branch refresh at the top of `setStatusMarker` (src/index.ts
lines 40-51): resolve the branch when the cache is empty, otherwise adopt a
changed non-null branch, in both cases keeping the two caches equal. -/
def refreshBranch (env : Env) (s : PluginState) : PluginState :=
  match s.currentBranch with
  | none =>
    let b := getCurrentBranch env
    { s with currentBranch := b, lastKnownBranch := b }
  | some cb =>
    match getCurrentBranch env with
    | some c =>
      if c ≠ cb then { s with currentBranch := some c, lastKnownBranch := some c } else s
    | none => s

/-- `setStatusMarker` (src/index.ts lines 39-72): refresh the branch, then set
or clear the marker, logging a failed invocation at debug level instead of
propagating it. Returns the new state, the emitted log records
(level, message), and the invocation trace. -/
def setStatusMarker (env : Env) (marker : Option String) (s : PluginState) :
    PluginState × List (String × String) × List (List String) :=
  let s1 := refreshBranch env s
  match s1.currentBranch with
  | none => (s1, [], [gitBranchCmd])
  | some b =>
    let cmd := markerSetCmd (marker.getD "") b
    match env cmd with
    | .ok _ => (s1, [], [gitBranchCmd, cmd])
    | .error e =>
      (s1, [("debug", "Failed to set status marker: " ++ e)], [gitBranchCmd, cmd])

/-- `checkBranchChange` (src/index.ts lines 87-99): the periodic poll adopting
an externally changed branch. -/
def checkBranchChange (env : Env) (s : PluginState) : PluginState × List (String × String) :=
  match getCurrentBranch env with
  | some nb =>
    if s.lastKnownBranch ≠ some nb then
      ({ s with currentBranch := some nb, lastKnownBranch := some nb },
       [("info", "Detected branch change: " ++ nb)])
    else (s, [])
  | none => (s, [])

/-- The deferred initialization callback (src/index.ts lines 105-133), as far
as it touches the branch caches. -/
def initPlugin (env : Env) : PluginState :=
  let b := getCurrentBranch env
  { currentBranch := b, lastKnownBranch := b, pendingMarker := none }

/-- `worktrunk-list` execute (src/index.ts lines 191-217). -/
def listExecute (env : Env) (format : Option String) (full branches : Bool)
    (s : PluginState) : OpResult :=
  if !isWorkTrunkInstalled env then ⟨notInstalledMsg, s, [versionCmd]⟩
  else
    let cmd := listCmd format full branches
    match env cmd with
    | .ok out => ⟨out, s, [versionCmd, cmd]⟩
    | .error e =>
      ⟨"Error running 'wt list': " ++ e ++
        "\n\nTroubleshooting:\n- Ensure WorkTrunk is installed: wt --version\n- Check you're in a git repository: git rev-parse --git-dir\n- Verify WorkTrunk is initialized: wt list",
       s, [versionCmd, cmd]⟩

/-- `worktrunk-switch` execute (src/index.ts lines 236-258). -/
def switchExecute (env : Env) (branch : String) (s : PluginState) : OpResult :=
  if !isWorkTrunkInstalled env then ⟨notInstalledMsg, s, [versionCmd]⟩
  else
    let cmd := switchCmd branch
    match env cmd with
    | .ok out =>
      if branch ≠ "@" ∧ branch ≠ "-" then
        ⟨"Switched to branch: " ++ branch ++ "\n" ++ out,
         { currentBranch := some branch, lastKnownBranch := some branch,
           pendingMarker := some (some waitMarker) },
         [versionCmd, cmd]⟩
      else
        let b := getCurrentBranch env
        ⟨"Switched to branch: " ++ branch ++ "\n" ++ out,
         { currentBranch := b, lastKnownBranch := b,
           pendingMarker := some (some waitMarker) },
         [versionCmd, cmd, gitBranchCmd]⟩
    | .error e =>
      ⟨"Error switching to branch '" ++ branch ++ "': " ++ e ++
        "\n\nTroubleshooting:\n- Ensure the branch exists: wt list\n- Check branch name spelling\n- Verify you're in a WorkTrunk-managed repository",
       s, [versionCmd, cmd]⟩

/-- `worktrunk-status` execute (src/index.ts lines 269-289). -/
def statusExecute (env : Env) (s : PluginState) : OpResult :=
  if !isWorkTrunkInstalled env then ⟨notInstalledMsg, s, [versionCmd]⟩
  else
    let b := getCurrentBranch env
    let s1 := { s with currentBranch := b, lastKnownBranch := b }
    match b with
    | none =>
      ⟨"Not in a git repository or no branch detected.\n\nTroubleshooting:\n- Ensure you're in a git repository: git rev-parse --git-dir\n- Check you're on a branch (not detached HEAD): git branch",
       s1, [versionCmd, gitBranchCmd]⟩
    | some br =>
      let cmd := statusListCmd br
      match env cmd with
      | .ok out =>
        ⟨if out == "" then "Current branch: " ++ br else out, s1,
         [versionCmd, gitBranchCmd, cmd]⟩
      | .error e =>
        ⟨"Error getting WorkTrunk status: " ++ e, s1, [versionCmd, gitBranchCmd, cmd]⟩

/-- Target-branch resolution of `worktrunk-status-update` (src/index.ts
lines 318-326): an absent, empty or `"@"` argument means the current branch. -/
def resolveTarget (env : Env) (branchArg : Option String) : Option String :=
  match branchArg with
  | none => getCurrentBranch env
  | some b => if b == "" || b == "@" then getCurrentBranch env else some b

/-- Whether `worktrunk-status-update` treats its branch argument as "the
current branch" (the JavaScript falsy-or-`"@"` test on lines 321 and 333). -/
def usesCurrent (branchArg : Option String) : Bool :=
  match branchArg with
  | none => true
  | some b => b == "" || b == "@"

/-- `worktrunk-status-update` execute (src/index.ts lines 312-344). -/
def statusUpdateExecute (env : Env) (marker : String) (branchArg : Option String)
    (s : PluginState) : OpResult :=
  if !isWorkTrunkInstalled env then ⟨notInstalledMsg, s, [versionCmd]⟩
  else
    let probe : List (List String) := if usesCurrent branchArg then [gitBranchCmd] else []
    match resolveTarget env branchArg with
    | none =>
      ⟨"Not in a git repository or no branch detected.\n\nTroubleshooting:\n- Ensure you're in a git repository: git rev-parse --git-dir\n- Check you're on a branch (not detached HEAD): git branch",
       s, [versionCmd] ++ probe⟩
    | some tb =>
      let cmd := markerSetCmd marker tb
      match env cmd with
      | .ok _ =>
        let s1 := if usesCurrent branchArg then
            { s with currentBranch := some tb, lastKnownBranch := some tb } else s
        ⟨"Updated status marker for branch '" ++ tb ++ "': " ++
          (if marker == "" then "(cleared)" else marker),
         s1, [versionCmd] ++ probe ++ [cmd]⟩
      | .error e =>
        ⟨"Error updating status marker: " ++ e, s, [versionCmd] ++ probe ++ [cmd]⟩

/-- Branch-name allow-list character test: the character class of the regex on
src/index.ts line 374 — `@`, ASCII word characters (letters, digits,
underscore), slash, hyphen, dot. -/
def branchCharOk (c : Char) : Bool :=
  c == '@' || c.isAlpha || c.isDigit || c == '_' || c == '/' || c == '-' || c == '.'

/-- The regex test on src/index.ts line 374: one or more allowed characters. -/
def validBranchName (b : String) : Bool := !b.isEmpty && b.data.all branchCharOk

/-- `worktrunk-create` execute (src/index.ts lines 368-400). -/
def createExecute (env : Env) (branch : String) (base : Option String)
    (s : PluginState) : OpResult :=
  if !isWorkTrunkInstalled env then ⟨notInstalledMsg, s, [versionCmd]⟩
  else if branch ≠ "" ∧ validBranchName branch = false ∧ branch ≠ "@" then
    ⟨"Error: Invalid branch name '" ++ branch ++
      "'. Branch names should only contain letters, numbers, slashes, hyphens, dots, or '@' for current branch.",
     s, [versionCmd]⟩
  else
    let cmd := createCmd branch base
    match env cmd with
    | .ok out =>
      let s1 : PluginState :=
        { currentBranch := some branch, lastKnownBranch := some branch,
          pendingMarker := some (some waitMarker) }
      match base with
      | some bs =>
        ⟨"Created and switched to branch: " ++ branch ++ " (from " ++
          (if bs == "@" then "current HEAD" else bs) ++ ")\n" ++ out,
         s1, [versionCmd, cmd]⟩
      | none =>
        ⟨"Created and switched to branch: " ++ branch ++ "\n" ++ out, s1, [versionCmd, cmd]⟩
    | .error e =>
      if strIncludes e "already exists" then
        ⟨"Error: Branch '" ++ branch ++
          "' already exists. Use worktrunk-switch to switch to it, or choose a different name.",
         s, [versionCmd, cmd]⟩
      else
        ⟨"Error creating worktree for branch '" ++ branch ++ "': " ++ e, s, [versionCmd, cmd]⟩

/-- `worktrunk-remove` execute (src/index.ts lines 417-443). -/
def removeExecute (env : Env) (branch : String) (s : PluginState) : OpResult :=
  if !isWorkTrunkInstalled env then ⟨notInstalledMsg, s, [versionCmd]⟩
  else
    let cmd := removeCmd branch
    match env cmd with
    | .ok out =>
      if branch = "@" ∨ s.currentBranch = some branch then
        let nb := getCurrentBranch env
        ⟨"Removed worktree: " ++ branch ++ "\n" ++ out,
         { s with currentBranch := nb, lastKnownBranch := nb },
         [versionCmd, cmd, gitBranchCmd]⟩
      else
        ⟨"Removed worktree: " ++ branch ++ "\n" ++ out, s, [versionCmd, cmd]⟩
    | .error e =>
      if strIncludes e "not found" || strIncludes e "does not exist" then
        ⟨"Error: Worktree '" ++ branch ++
          "' not found. Use 'worktrunk-list' to see available worktrees.",
         s, [versionCmd, cmd]⟩
      else
        ⟨"Error removing worktree '" ++ branch ++ "': " ++ e, s, [versionCmd, cmd]⟩

/-- `worktrunk-default-branch` execute (src/index.ts lines 459-472). -/
def defaultBranchExecute (env : Env) (s : PluginState) : OpResult :=
  if !isWorkTrunkInstalled env then ⟨notInstalledMsg, s, [versionCmd]⟩
  else
    match env defaultBranchCmd with
    | .ok out =>
      let b := out.trim
      ⟨if b == "" then
          "Unable to determine default branch. WorkTrunk may not be initialized in this repository."
        else b, s, [versionCmd, defaultBranchCmd]⟩
    | .error e =>
      ⟨"Error getting default branch: " ++ e ++
        "\n\nTroubleshooting:\n- Ensure WorkTrunk is initialized: wt list\n- Check repository configuration: wt config state",
       s, [versionCmd, defaultBranchCmd]⟩

/-- The debounce delay in milliseconds (src/index.ts line 83). -/
def debounceMs : Nat := 200

/-- Timed debounce state: the pending `setStatusMarker` timers (firing time and
captured marker) and the markers of the debounce callbacks that already fired,
in firing order. -/
structure DState where
  timers : List (Nat × Option String)
  fired : List (Option String)

/-- Debounce state at plugin start: no timer pending, nothing fired. -/
def dInit : DState := ⟨[], []⟩

/-- Event-loop behaviour up to time `now`: every pending timer that is due
fires (its callback runs `setStatusMarker marker`), the rest stay pending. -/
def fireDue (s : DState) (now : Nat) : DState :=
  ⟨s.timers.filter (fun t => decide (now < t.1)),
   s.fired ++ (s.timers.filter (fun t => decide (t.1 ≤ now))).map Prod.snd⟩

/-- `updateStatus` (src/index.ts lines 75-84) called at time `now`: timers
already due have fired, the stored pending timer is cancelled (`clearTimeout`)
and a single fresh timer is scheduled `debounceMs` later with the new marker. -/
def updateStatus (s : DState) (now : Nat) (marker : Option String) : DState :=
  let s1 := fireDue s now
  ⟨[(now + debounceMs, marker)], s1.fired⟩

/-- Run a sequence of `updateStatus` calls, each tagged with its arrival time. -/
def runUpdates (s : DState) : List (Nat × Option String) → DState
  | [] => s
  | (t, m) :: rest => runUpdates (updateStatus s t m) rest

/-- `withinWindow prev l` holds when each update in `l` arrives no earlier than
its predecessor and strictly before the timer scheduled at the predecessor's
time would fire. -/
def withinWindow : Nat → List (Nat × Option String) → Bool
  | _, [] => true
  | prev, (t, _) :: rest =>
    (decide (prev ≤ t) && decide (t < prev + debounceMs)) && withinWindow t rest

/-- Both branch caches hold the same value — the invariant of claim C9. -/
def cacheInv (s : PluginState) : Prop := s.currentBranch = s.lastKnownBranch

/-- The allow-list exactly as claim C3 words it — letters, digits, slash,
hyphen, dot, `@` — written from the claim so it can be compared with
`branchCharOk`, the class the code actually tests (which additionally allows
the underscore). -/
def specAllowedChar (c : Char) : Bool :=
  c.isAlpha || c.isDigit || c == '/' || c == '-' || c == '.' || c == '@'

/-- Initial closure state: nothing cached, no timer. -/
def s0 : PluginState := ⟨none, none, none⟩

/-- Concrete environment: every invocation throws (the tool is absent). -/
def envDown : Env := fun _ => .error "wt: command not found"

/-- Concrete environment: every invocation succeeds with output "ok", and the
git branch probe reports branch "main". -/
def envMain : Env := fun cmd => if cmd = gitBranchCmd then .ok "main\n" else .ok "ok"

/-- Concrete environment: the version and git probes succeed, every other
invocation throws an error message mentioning "already exists". -/
def envExists : Env := fun cmd =>
  if cmd = versionCmd then .ok "wt 0.1.0"
  else if cmd = gitBranchCmd then .ok "main\n"
  else .error "fatal: branch xyz already exists somewhere"

/-- Concrete environment: the version probe succeeds, every other invocation
throws "boom". -/
def envWtDown : Env := fun cmd => if cmd = versionCmd then .ok "wt 0.1.0" else .error "boom"

theorem containsStr_append_left {s : String} (pat t : String) (h : containsStr s pat) :
    containsStr (s ++ t) pat := by
  obtain ⟨a, b, hab⟩ := h
  exact ⟨a, b ++ t.data, by simp [String.data_append, ← hab]⟩

theorem containsStr_append_right {s : String} (pat t : String) (h : containsStr s pat) :
    containsStr (t ++ s) pat := by
  obtain ⟨a, b, hab⟩ := h
  exact ⟨t.data ++ a, b, by simp [String.data_append, ← hab]⟩

theorem containsStr_refl (s : String) : containsStr s s :=
  ⟨[], [], by simp⟩

theorem runUpdates_timers_le_one (l : List (Nat × Option String)) :
    ∀ s : DState, s.timers.length ≤ 1 → (runUpdates s l).timers.length ≤ 1 := by
  induction l with
  | nil => intro s h; exact h
  | cons hd tl ih =>
    intro s h
    exact ih _ (by simp [updateStatus])

theorem runUpdates_pending (rest : List (Nat × Option String)) :
    ∀ (p : Nat) (m : Option String) (F : List (Option String)),
    withinWindow p rest = true →
    runUpdates ⟨[(p + debounceMs, m)], F⟩ rest =
      ⟨[((rest.getLastD (p, m)).1 + debounceMs, (rest.getLastD (p, m)).2)], F⟩ := by
  induction rest with
  | nil => intro p m F _; simp [runUpdates]
  | cons hd tl ih =>
    intro p m F hw
    obtain ⟨t, m'⟩ := hd
    simp only [withinWindow, Bool.and_eq_true, decide_eq_true_eq] at hw
    obtain ⟨⟨hle, hlt⟩, hw'⟩ := hw
    have hnot : ¬(p + debounceMs ≤ t) := Nat.not_le.mpr hlt
    have hk : updateStatus ⟨[(p + debounceMs, m)], F⟩ t m' = ⟨[(t + debounceMs, m')], F⟩ := by
      simp [updateStatus, fireDue, List.filter, hnot]
    rw [runUpdates, hk, ih t m' F hw', List.getLastD_cons]

/-- C2: the event-to-marker mapping is a pure total function: on a
`session.status` event the handler calls `updateStatus` with exactly
`statusToMarker status`; substates "working" and "thinking" map to the work
marker 🤖, "waiting" and "idle" to the wait marker 💬, and every other
substate to no marker (clear). -/
theorem event_marker_mapping (status : String) :
    handleEvent "session.status" status = some (statusToMarker status) ∧
    ((status = "working" ∨ status = "thinking") → statusToMarker status = some workMarker) ∧
    ((status = "waiting" ∨ status = "idle") → statusToMarker status = some waitMarker) ∧
    (status ≠ "working" → status ≠ "thinking" → status ≠ "waiting" → status ≠ "idle" →
      statusToMarker status = none) := by
  refine ⟨rfl, ?_, ?_, ?_⟩
  · rintro (rfl | rfl) <;> rfl
  · rintro (rfl | rfl) <;> rfl
  · intro h1 h2 h3 h4
    simp only [statusToMarker, beq_iff_eq, Bool.or_eq_true]
    rw [if_neg, if_neg]
    · simp [h3, h4]
    · simp [h1, h2]

/-- Witness for `event_marker_mapping` at concrete substates. -/
theorem event_marker_mapping_witness :
    statusToMarker "thinking" = some workMarker ∧
    statusToMarker "idle" = some waitMarker ∧
    statusToMarker "compacting" = none :=
  ⟨(event_marker_mapping "thinking").2.1 (Or.inr rfl),
   (event_marker_mapping "idle").2.2.1 (Or.inr rfl),
   (event_marker_mapping "compacting").2.2.2 (by decide) (by decide) (by decide) (by decide)⟩

/-- C1: for every nonempty sequence of status updates arriving within the
200ms debounce window, at most one pending marker-update timer exists at any
time along the run; no debounce callback fires before the window elapses; when
the window elapses exactly one `setStatusMarker` callback fires, carrying the
marker of the last status; and that single callback performs exactly one
external marker-set invocation, for the current branch with that marker. -/
theorem debounce_coalesces (t0 : Nat) (m0 : Option String)
    (rest : List (Nat × Option String)) (hw : withinWindow t0 rest = true) :
    (∀ pre suf, (t0, m0) :: rest = pre ++ suf →
      (runUpdates dInit pre).timers.length ≤ 1) ∧
    (runUpdates dInit ((t0, m0) :: rest)).fired = [] ∧
    (fireDue (runUpdates dInit ((t0, m0) :: rest))
        ((rest.getLastD (t0, m0)).1 + debounceMs)).fired = [(rest.getLastD (t0, m0)).2] ∧
    (fireDue (runUpdates dInit ((t0, m0) :: rest))
        ((rest.getLastD (t0, m0)).1 + debounceMs)).timers = [] ∧
    (∀ (env : Env) (b : String) (s : PluginState),
      getCurrentBranch env = some b → s.currentBranch = some b →
      (setStatusMarker env (rest.getLastD (t0, m0)).2 s).2.2 =
        [gitBranchCmd, markerSetCmd ((rest.getLastD (t0, m0)).2.getD "") b]) := by
  have h0 : updateStatus dInit t0 m0 = ⟨[(t0 + debounceMs, m0)], []⟩ := by
    simp [updateStatus, fireDue, dInit]
  have hrun : runUpdates dInit ((t0, m0) :: rest) =
      ⟨[((rest.getLastD (t0, m0)).1 + debounceMs, (rest.getLastD (t0, m0)).2)], []⟩ := by
    rw [runUpdates, h0, runUpdates_pending rest t0 m0 [] hw]
  refine ⟨?_, ?_, ?_, ?_, ?_⟩
  · intro pre suf _
    exact runUpdates_timers_le_one pre dInit (by simp [dInit])
  · rw [hrun]
  · rw [hrun]
    simp [fireDue, List.filter]
  · rw [hrun]
    simp [fireDue, List.filter]
  · intro env b s hgit hcur
    have hr : refreshBranch env s = s := by
      simp [refreshBranch, hcur, hgit]
    simp only [setStatusMarker, hr, hcur]
    cases env (markerSetCmd ((rest.getLastD (t0, m0)).2.getD "") b) <;> rfl

/-- Witness for `debounce_coalesces`: three updates at times 0, 50 and 120,
all inside each other's 200ms windows; the single fired callback carries the
last marker (here `none`, the clear). -/
theorem debounce_coalesces_witness :
    (fireDue (runUpdates dInit [(0, some workMarker), (50, some waitMarker), (120, none)])
        (120 + debounceMs)).fired = [none] :=
  (debounce_coalesces 0 (some workMarker) [(50, some waitMarker), (120, none)] (by decide)).2.2.1

/-- C4: if the `wt --version` probe fails, every tool-backed operation (list,
switch, status, status-update, create, remove, default-branch) returns the
fixed message — which contains "not installed" — and performs no external
invocation beyond the probe itself. -/
theorem not_installed_short_circuit (env : Env) (h : isWorkTrunkInstalled env = false) :
    containsStr notInstalledMsg "not installed" ∧
    (∀ format full branches s,
      listExecute env format full branches s = ⟨notInstalledMsg, s, [versionCmd]⟩) ∧
    (∀ branch s, switchExecute env branch s = ⟨notInstalledMsg, s, [versionCmd]⟩) ∧
    (∀ s, statusExecute env s = ⟨notInstalledMsg, s, [versionCmd]⟩) ∧
    (∀ marker branchArg s,
      statusUpdateExecute env marker branchArg s = ⟨notInstalledMsg, s, [versionCmd]⟩) ∧
    (∀ branch base s, createExecute env branch base s = ⟨notInstalledMsg, s, [versionCmd]⟩) ∧
    (∀ branch s, removeExecute env branch s = ⟨notInstalledMsg, s, [versionCmd]⟩) ∧
    (∀ s, defaultBranchExecute env s = ⟨notInstalledMsg, s, [versionCmd]⟩) := by
  refine ⟨by decide, ?_, ?_, ?_, ?_, ?_, ?_, ?_⟩ <;> intros <;>
    simp [listExecute, switchExecute, statusExecute, statusUpdateExecute, createExecute,
      removeExecute, defaultBranchExecute, h]

/-- Witness for `not_installed_short_circuit` in the all-failing environment. -/
theorem not_installed_short_circuit_witness :
    listExecute envDown none false false s0 = ⟨notInstalledMsg, s0, [versionCmd]⟩ :=
  (not_installed_short_circuit envDown rfl).2.1 none false false s0

/-- C7: `list({format: "json", full: true, branches: true})` with a successful
external call issues a single `wt list` invocation whose tokens include
`--format=json`, `--full` and `--branches`, and returns the external tool's
standard output unmodified. -/
theorem list_json_full_branches (env : Env) (s : PluginState) (out : String)
    (hinst : isWorkTrunkInstalled env = true)
    (hok : env (listCmd (some "json") true true) = .ok out) :
    listExecute env (some "json") true true s =
      ⟨out, s, [versionCmd, listCmd (some "json") true true]⟩ ∧
    "--format=json" ∈ listCmd (some "json") true true ∧
    "--full" ∈ listCmd (some "json") true true ∧
    "--branches" ∈ listCmd (some "json") true true := by
  refine ⟨?_, by decide, by decide, by decide⟩
  simp [listExecute, hinst, hok]

/-- Witness for `list_json_full_branches` in the all-ok environment. -/
theorem list_json_full_branches_witness :
    listExecute envMain (some "json") true true s0 =
      ⟨"ok", s0, [versionCmd, listCmd (some "json") true true]⟩ :=
  (list_json_full_branches envMain s0 "ok" rfl rfl).1

/-- C10: in `worktrunk-create` the installation check precedes branch-name
validation: for a branch failing the allow-list, when the version probe also
fails the result is exactly the fixed not-installed message — it contains
"not installed" and does not contain "Invalid branch name". -/
theorem install_check_precedes_validation (env : Env) (branch : String)
    (base : Option String) (s : PluginState)
    (hinst : isWorkTrunkInstalled env = false)
    (hbad : validBranchName branch = false) :
    (createExecute env branch base s).output = notInstalledMsg ∧
    containsStr (createExecute env branch base s).output "not installed" ∧
    ¬containsStr (createExecute env branch base s).output "Invalid branch name" := by
  have h2 : (createExecute env branch base s).output = notInstalledMsg := by
    simp [createExecute, hinst]
  rw [h2]
  exact ⟨rfl, by decide, by decide⟩

/-- Witness for `install_check_precedes_validation`: the branch "bad name"
(contains a space) in the all-failing environment. -/
theorem install_check_precedes_validation_witness :
    validBranchName "bad name" = false ∧
    (createExecute envDown "bad name" none s0).output = notInstalledMsg :=
  ⟨by decide, (install_check_precedes_validation envDown "bad name" none s0 rfl (by decide)).1⟩

/-- C5: a successful remove of the branch equal to the cached active branch
(or via the "@" shortcut) clears the branch cache and re-resolves it from git
— the resulting caches equal `getCurrentBranch` — and the status tool never
returns the pre-removal cached value: with the tool installed, its output,
trace and resulting branch cache are the same whatever state it starts from,
because it always re-resolves the branch. -/
theorem remove_clears_cache (env : Env) (s : PluginState) (branch out : String)
    (hinst : isWorkTrunkInstalled env = true)
    (hok : env (removeCmd branch) = .ok out)
    (hcur : branch = "@" ∨ s.currentBranch = some branch) :
    (removeExecute env branch s).state.currentBranch = getCurrentBranch env ∧
    (removeExecute env branch s).state.lastKnownBranch = getCurrentBranch env ∧
    (removeExecute env branch s).trace = [versionCmd, removeCmd branch, gitBranchCmd] ∧
    (∀ (env2 : Env) (s1 s2 : PluginState), isWorkTrunkInstalled env2 = true →
      (statusExecute env2 s1).output = (statusExecute env2 s2).output ∧
      (statusExecute env2 s1).trace = (statusExecute env2 s2).trace ∧
      (statusExecute env2 s1).state.currentBranch =
        (statusExecute env2 s2).state.currentBranch) := by
  have h1 : (removeExecute env branch s).state.currentBranch = getCurrentBranch env ∧
      (removeExecute env branch s).state.lastKnownBranch = getCurrentBranch env ∧
      (removeExecute env branch s).trace = [versionCmd, removeCmd branch, gitBranchCmd] := by
    simp [removeExecute, hinst, hok, hcur]
  refine ⟨h1.1, h1.2.1, h1.2.2, ?_⟩
  intro env2 s1 s2 hinst2
  simp only [statusExecute, hinst2, Bool.not_true, Bool.false_eq_true, if_false]
  cases hgb : getCurrentBranch env2 with
  | none => exact ⟨rfl, rfl, rfl⟩
  | some br => cases henv : env2 (statusListCmd br) <;> simp [henv]

/-- Witness for `remove_clears_cache`: removing "@" in the all-ok environment
leaves the cache at exactly the value git re-resolves to. -/
theorem remove_clears_cache_witness :
    (removeExecute envMain "@" s0).state.currentBranch = getCurrentBranch envMain :=
  (remove_clears_cache envMain s0 "@" "ok" rfl rfl (Or.inl rfl)).1

theorem cacheInv_refreshBranch (env : Env) (s : PluginState) (h : cacheInv s) :
    cacheInv (refreshBranch env s) := by
  simp only [cacheInv, refreshBranch] at *
  split
  · rfl
  · split
    · split
      · rfl
      · exact h
    · exact h

/-- C9: after initialization and after every modelled operation, the two cache
variables `currentBranch` and `lastKnownBranch` are equal: every code path
that assigns one also assigns the other to the same value. -/
theorem caches_stay_equal :
    (∀ env : Env, cacheInv (initPlugin env)) ∧
    (∀ env marker s, cacheInv s → cacheInv (setStatusMarker env marker s).1) ∧
    (∀ env s, cacheInv s → cacheInv (checkBranchChange env s).1) ∧
    (∀ env format full branches s, cacheInv s →
      cacheInv (listExecute env format full branches s).state) ∧
    (∀ env branch s, cacheInv s → cacheInv (switchExecute env branch s).state) ∧
    (∀ env s, cacheInv s → cacheInv (statusExecute env s).state) ∧
    (∀ env marker branchArg s, cacheInv s →
      cacheInv (statusUpdateExecute env marker branchArg s).state) ∧
    (∀ env branch base s, cacheInv s → cacheInv (createExecute env branch base s).state) ∧
    (∀ env branch s, cacheInv s → cacheInv (removeExecute env branch s).state) ∧
    (∀ env s, cacheInv s → cacheInv (defaultBranchExecute env s).state) := by
  refine ⟨fun env => rfl, ?_, ?_, ?_, ?_, ?_, ?_, ?_, ?_, ?_⟩
  · intro env marker s h
    have h1 := cacheInv_refreshBranch env s h
    simp only [setStatusMarker]
    split
    · exact h1
    · split
      · exact h1
      · exact h1
  · intro env s h
    simp only [checkBranchChange, cacheInv]
    split
    · split
      · rfl
      · exact h
    · exact h
  · intro env format full branches s h
    simp only [listExecute]
    split
    · exact h
    · split
      · exact h
      · exact h
  · intro env branch s h
    simp only [switchExecute]
    split
    · exact h
    · split
      · split
        · rfl
        · rfl
      · exact h
  · intro env s h
    simp only [statusExecute]
    split
    · exact h
    · split
      · rfl
      · split
        · rfl
        · rfl
  · intro env marker branchArg s h
    simp only [statusUpdateExecute]
    split
    · exact h
    · split
      · exact h
      · split
        · simp only [cacheInv]
          split
          · rfl
          · exact h
        · exact h
  · intro env branch base s h
    simp only [createExecute]
    split
    · exact h
    · split
      · exact h
      · split
        · split
          · rfl
          · rfl
        · split
          · exact h
          · exact h
  · intro env branch s h
    simp only [removeExecute]
    split
    · exact h
    · split
      · split
        · rfl
        · exact h
      · split
        · exact h
        · exact h
  · intro env s h
    simp only [defaultBranchExecute]
    split
    · exact h
    · split
      · exact h
      · exact h

/-- Witness for `caches_stay_equal`: one marker update from the empty state in
the all-failing environment keeps the caches equal. -/
theorem caches_stay_equal_witness :
    cacheInv (setStatusMarker envDown none s0).1 :=
  caches_stay_equal.2.1 envDown none s0 rfl

theorem branchCharOk_eq_false_of_isWhitespace {c : Char} (h : c.isWhitespace = true) :
    branchCharOk c = false := by
  simp only [Char.isWhitespace, Bool.or_eq_true, decide_eq_true_eq] at h
  rcases h with ((h | h) | h) | h <;> subst h <;> rfl

/-- C3 counterexample: the branch "a_b" contains the underscore, a punctuation
character (Unicode category Pc, connector punctuation) that is outside the
claim's allow-list of letters, digits, slash, hyphen, dot and `@`; yet with
the tool installed `worktrunk-create` accepts it — the result does not contain
"Invalid branch name" and the external create invocation is issued. -/
theorem create_underscore_counterexample :
    ('_' ∈ "a_b".data ∧ specAllowedChar '_' = false ∧ '_'.isWhitespace = false) ∧
    isWorkTrunkInstalled envMain = true ∧
    ¬containsStr (createExecute envMain "a_b" none s0).output "Invalid branch name" ∧
    (createExecute envMain "a_b" none s0).trace = [versionCmd, createCmd "a_b" none] :=
  ⟨by decide, rfl, by decide, by decide⟩

/-- C3 (amended): the code's allow-list additionally admits the underscore
(the regex uses the ASCII word class): for every branch argument containing
whitespace or any character outside letters, digits, underscore, slash,
hyphen, dot and `@`, with the external tool installed, the create operation
returns a message containing "Invalid branch name" and performs no external
invocation beyond the installation probe. -/
theorem create_rejects_invalid_branch (env : Env) (branch : String)
    (base : Option String) (s : PluginState)
    (hinst : isWorkTrunkInstalled env = true)
    (hbad : ∃ c ∈ branch.data, c.isWhitespace = true ∨ branchCharOk c = false) :
    containsStr (createExecute env branch base s).output "Invalid branch name" ∧
    (createExecute env branch base s).trace = [versionCmd] := by
  obtain ⟨c, hc, hcb⟩ := hbad
  have hcbad : branchCharOk c = false := by
    rcases hcb with h | h
    · exact branchCharOk_eq_false_of_isWhitespace h
    · exact h
  have hval : validBranchName branch = false := by
    unfold validBranchName
    have hall : branch.data.all branchCharOk = false := by
      rw [List.all_eq_false]
      exact ⟨c, hc, by simp [hcbad]⟩
    simp [hall]
  have hne : branch ≠ "" := by
    intro h
    subst h
    have hdata : ("" : String).data = [] := rfl
    rw [hdata] at hc
    exact List.not_mem_nil c hc
  have hna : branch ≠ "@" := by
    intro h
    subst h
    have hdata : ("@" : String).data = ['@'] := rfl
    rw [hdata, List.mem_singleton] at hc
    subst hc
    exact absurd hcbad (by decide)
  have hcond : branch ≠ "" ∧ validBranchName branch = false ∧ branch ≠ "@" :=
    ⟨hne, hval, hna⟩
  have hout : (createExecute env branch base s).output =
      "Error: Invalid branch name '" ++ branch ++
        "'. Branch names should only contain letters, numbers, slashes, hyphens, dots, or '@' for current branch." ∧
      (createExecute env branch base s).trace = [versionCmd] := by
    simp [createExecute, hinst, hcond]
  refine ⟨?_, hout.2⟩
  rw [hout.1]
  exact containsStr_append_left _ _ (containsStr_append_left _ _ (by decide))

/-- Witness for `create_rejects_invalid_branch`: the branch "bad name"
(contains a space) in the all-ok environment. -/
theorem create_rejects_invalid_branch_witness :
    containsStr (createExecute envMain "bad name" none s0).output "Invalid branch name" :=
  (create_rejects_invalid_branch envMain "bad name" none s0 rfl (by decide)).1

/-- C6: with a successful external call, `create({branch: "feature/x"})`
returns text containing "feature/x" and issues a single invocation whose
tokens include `--create` and include no token containing `--base`;
`create({branch: "feature/y", base: "@"})` additionally carries the
`--base=@` token and its returned text contains "current HEAD". -/
theorem create_examples (env env2 : Env) (s s2 : PluginState) (out out2 : String)
    (hinst : isWorkTrunkInstalled env = true)
    (hok : env (createCmd "feature/x" none) = .ok out)
    (hinst2 : isWorkTrunkInstalled env2 = true)
    (hok2 : env2 (createCmd "feature/y" (some "@")) = .ok out2) :
    containsStr (createExecute env "feature/x" none s).output "feature/x" ∧
    (createExecute env "feature/x" none s).trace = [versionCmd, createCmd "feature/x" none] ∧
    ("--create" ∈ createCmd "feature/x" none ∧
      ∀ tok ∈ createCmd "feature/x" none, ¬containsStr tok "--base") ∧
    containsStr (createExecute env2 "feature/y" (some "@") s2).output "current HEAD" ∧
    (createExecute env2 "feature/y" (some "@") s2).trace =
      [versionCmd, createCmd "feature/y" (some "@")] ∧
    "--base=@" ∈ createCmd "feature/y" (some "@") ∧
    "--create" ∈ createCmd "feature/y" (some "@") := by
  have hvx : validBranchName "feature/x" = true := by decide
  have hvy : validBranchName "feature/y" = true := by decide
  have h1 : (createExecute env "feature/x" none s).output =
      "Created and switched to branch: " ++ "feature/x" ++ "\n" ++ out ∧
      (createExecute env "feature/x" none s).trace =
        [versionCmd, createCmd "feature/x" none] := by
    simp [createExecute, hinst, hok, hvx]
  have h2 : (createExecute env2 "feature/y" (some "@") s2).output =
      "Created and switched to branch: " ++ "feature/y" ++ " (from " ++ "current HEAD" ++
        ")\n" ++ out2 ∧
      (createExecute env2 "feature/y" (some "@") s2).trace =
        [versionCmd, createCmd "feature/y" (some "@")] := by
    simp [createExecute, hinst2, hok2, hvy]
  refine ⟨?_, h1.2, ⟨by decide, by decide⟩, ?_, h2.2, by decide, by decide⟩
  · rw [h1.1]
    exact containsStr_append_left _ _ (containsStr_append_left _ _ (by decide))
  · rw [h2.1]
    exact containsStr_append_left _ _ (containsStr_append_left _ _ (by decide))

/-- Witness for `create_examples` in the all-ok environment. -/
theorem create_examples_witness :
    (createExecute envMain "feature/x" none s0).trace =
      [versionCmd, createCmd "feature/x" none] :=
  (create_examples envMain envMain s0 s0 "ok" "ok" rfl rfl rfl rfl).2.1

/-- C8 counterexample: a create invocation that throws an error message
mentioning "already exists" is answered with a fixed message; the returned
string contains "Error" but does not embed the caught error's message,
refuting the claim that on failure the returned string always embeds it. -/
theorem error_embedding_counterexample :
    envExists (createCmd "feature/x" none) =
      .error "fatal: branch xyz already exists somewhere" ∧
    containsStr (createExecute envExists "feature/x" none s0).output "Error" ∧
    ¬containsStr (createExecute envExists "feature/x" none s0).output
      "fatal: branch xyz already exists somewhere" :=
  ⟨rfl, by decide, by decide⟩

/-- C8 (amended): every operation is a total function into strings — no
failure path raises. When the operation's external invocation throws, the
returned string contains "Error"; it embeds the caught error's message except
for the create operation on an error mentioning "already exists" and the
remove operation on an error mentioning "not found" or "does not exist",
which return fixed "Error" messages without the error text. A failed
debounced marker update is logged at debug level with the error embedded,
and is not propagated: the returned state is the refreshed state regardless. -/
theorem errors_returned_as_strings :
    (∀ (env : Env) format full branches s e, isWorkTrunkInstalled env = true →
      env (listCmd format full branches) = .error e →
      containsStr (listExecute env format full branches s).output "Error" ∧
      containsStr (listExecute env format full branches s).output e) ∧
    (∀ (env : Env) branch s e, isWorkTrunkInstalled env = true →
      env (switchCmd branch) = .error e →
      containsStr (switchExecute env branch s).output "Error" ∧
      containsStr (switchExecute env branch s).output e) ∧
    (∀ (env : Env) s br e, isWorkTrunkInstalled env = true →
      getCurrentBranch env = some br → env (statusListCmd br) = .error e →
      containsStr (statusExecute env s).output "Error" ∧
      containsStr (statusExecute env s).output e) ∧
    (∀ (env : Env) marker branchArg tb s e, isWorkTrunkInstalled env = true →
      resolveTarget env branchArg = some tb → env (markerSetCmd marker tb) = .error e →
      containsStr (statusUpdateExecute env marker branchArg s).output "Error" ∧
      containsStr (statusUpdateExecute env marker branchArg s).output e) ∧
    (∀ (env : Env) branch base s e, isWorkTrunkInstalled env = true →
      validBranchName branch = true → env (createCmd branch base) = .error e →
      containsStr (createExecute env branch base s).output "Error" ∧
      (strIncludes e "already exists" = false →
        containsStr (createExecute env branch base s).output e)) ∧
    (∀ (env : Env) branch s e, isWorkTrunkInstalled env = true →
      env (removeCmd branch) = .error e →
      containsStr (removeExecute env branch s).output "Error" ∧
      (strIncludes e "not found" = false → strIncludes e "does not exist" = false →
        containsStr (removeExecute env branch s).output e)) ∧
    (∀ (env : Env) s e, isWorkTrunkInstalled env = true →
      env defaultBranchCmd = .error e →
      containsStr (defaultBranchExecute env s).output "Error" ∧
      containsStr (defaultBranchExecute env s).output e) ∧
    (∀ (env : Env) marker s b e, (refreshBranch env s).currentBranch = some b →
      env (markerSetCmd (marker.getD "") b) = .error e →
      (setStatusMarker env marker s).1 = refreshBranch env s ∧
      (setStatusMarker env marker s).2.1 =
        [("debug", "Failed to set status marker: " ++ e)] ∧
      containsStr ("Failed to set status marker: " ++ e) e) := by
  refine ⟨?_, ?_, ?_, ?_, ?_, ?_, ?_, ?_⟩
  · intro env format full branches s e hinst herr
    have h : (listExecute env format full branches s).output =
        "Error running 'wt list': " ++ e ++
          "\n\nTroubleshooting:\n- Ensure WorkTrunk is installed: wt --version\n- Check you're in a git repository: git rev-parse --git-dir\n- Verify WorkTrunk is initialized: wt list" := by
      simp [listExecute, hinst, herr]
    rw [h]
    constructor
    · exact containsStr_append_left _ _ (containsStr_append_left _ _ (by decide))
    · exact containsStr_append_left _ _ (containsStr_append_right _ _ (containsStr_refl e))
  · intro env branch s e hinst herr
    have h : (switchExecute env branch s).output =
        "Error switching to branch '" ++ branch ++ "': " ++ e ++
          "\n\nTroubleshooting:\n- Ensure the branch exists: wt list\n- Check branch name spelling\n- Verify you're in a WorkTrunk-managed repository" := by
      simp [switchExecute, hinst, herr]
    rw [h]
    constructor
    · exact containsStr_append_left _ _ (containsStr_append_left _ _
        (containsStr_append_left _ _ (containsStr_append_left _ _ (by decide))))
    · exact containsStr_append_left _ _ (containsStr_append_right _ _ (containsStr_refl e))
  · intro env s br e hinst hbr herr
    have h : (statusExecute env s).output = "Error getting WorkTrunk status: " ++ e := by
      simp [statusExecute, hinst, hbr, herr]
    rw [h]
    constructor
    · exact containsStr_append_left _ _ (by decide)
    · exact containsStr_append_right _ _ (containsStr_refl e)
  · intro env marker branchArg tb s e hinst hres herr
    have h : (statusUpdateExecute env marker branchArg s).output =
        "Error updating status marker: " ++ e := by
      simp [statusUpdateExecute, hinst, hres, herr]
    rw [h]
    constructor
    · exact containsStr_append_left _ _ (by decide)
    · exact containsStr_append_right _ _ (containsStr_refl e)
  · intro env branch base s e hinst hval herr
    by_cases hsp : strIncludes e "already exists" = true
    · have h : (createExecute env branch base s).output =
          "Error: Branch '" ++ branch ++
            "' already exists. Use worktrunk-switch to switch to it, or choose a different name." := by
        simp [createExecute, hinst, hval, herr, hsp]
      rw [h]
      refine ⟨containsStr_append_left _ _ (containsStr_append_left _ _ (by decide)), ?_⟩
      intro hfalse
      rw [hfalse] at hsp
      exact absurd hsp (by decide)
    · have hsp2 : strIncludes e "already exists" = false := by
        cases hx : strIncludes e "already exists"
        · rfl
        · exact absurd hx hsp
      have h : (createExecute env branch base s).output =
          "Error creating worktree for branch '" ++ branch ++ "': " ++ e := by
        simp [createExecute, hinst, hval, herr, hsp2]
      rw [h]
      refine ⟨containsStr_append_left _ _ (containsStr_append_left _ _
        (containsStr_append_left _ _ (by decide))), ?_⟩
      intro _
      exact containsStr_append_right _ _ (containsStr_refl e)
  · intro env branch s e hinst herr
    by_cases hsp : (strIncludes e "not found" || strIncludes e "does not exist") = true
    · have h : (removeExecute env branch s).output =
          "Error: Worktree '" ++ branch ++
            "' not found. Use 'worktrunk-list' to see available worktrees." := by
        simp [removeExecute, hinst, herr, hsp]
      rw [h]
      refine ⟨containsStr_append_left _ _ (containsStr_append_left _ _ (by decide)), ?_⟩
      intro h1 h2
      rw [h1, h2] at hsp
      exact absurd hsp (by decide)
    · have hsp2 : (strIncludes e "not found" || strIncludes e "does not exist") = false := by
        cases hx : strIncludes e "not found" || strIncludes e "does not exist"
        · rfl
        · exact absurd hx hsp
      have h : (removeExecute env branch s).output =
          "Error removing worktree '" ++ branch ++ "': " ++ e := by
        simp [removeExecute, hinst, herr, hsp2]
      rw [h]
      refine ⟨containsStr_append_left _ _ (containsStr_append_left _ _
        (containsStr_append_left _ _ (by decide))), ?_⟩
      intro _ _
      exact containsStr_append_right _ _ (containsStr_refl e)
  · intro env s e hinst herr
    have h : (defaultBranchExecute env s).output =
        "Error getting default branch: " ++ e ++
          "\n\nTroubleshooting:\n- Ensure WorkTrunk is initialized: wt list\n- Check repository configuration: wt config state" := by
      simp [defaultBranchExecute, hinst, herr]
    rw [h]
    constructor
    · exact containsStr_append_left _ _ (containsStr_append_left _ _ (by decide))
    · exact containsStr_append_left _ _ (containsStr_append_right _ _ (containsStr_refl e))
  · intro env marker s b e hb herr
    refine ⟨?_, ?_, containsStr_append_right _ _ (containsStr_refl e)⟩
    · simp [setStatusMarker, hb, herr]
    · simp [setStatusMarker, hb, herr]

/-- Witness for `errors_returned_as_strings`: the list tool against an
environment whose `wt list` invocation throws "boom". -/
theorem errors_returned_as_strings_witness :
    containsStr (listExecute envWtDown none false false s0).output "boom" :=
  (errors_returned_as_strings.1 envWtDown none false false s0 "boom" rfl rfl).2
